import Mathlib

/-!
Verification of the effect-application framework of
src/soh/soh/Enhancements/game-interactor/GameInteractionEffect.h.

The header declares the feasibility enum, the base effect class
(GameInteractionEffectBase, with Apply/Remove and the int32_t parameters[3]
array), the removable subtype (RemovableGameInteractionEffect, with
CanBeRemoved/Remove and an inline no-op default body for the reversal hook),
and the closed catalog of concrete effect variant classes.  The bodies of
GameInteractionEffectBase::Apply, GameInteractionEffectBase::Remove,
RemovableGameInteractionEffect::CanBeRemoved and
RemovableGameInteractionEffect::Remove live in GameInteractionEffect.cpp,
which is not among the given sources; those operations are modelled from the
spec (sections 4.1 and 7), as marked on each definition.
-/

set_option autoImplicit false

namespace SoH

/-- Tri-state feasibility result, from the header: enum
GameInteractionEffectQueryResult \x7b Possible = 0x00,
TemporarilyNotPossible = 0x01, NotPossible = 0xFF \x7d. -/
inductive GameInteractionEffectQueryResult where
  | Possible
  | TemporarilyNotPossible
  | NotPossible
  deriving DecidableEq, Repr, Fintype

/-- Numeric encoding of each enumerator, exactly as fixed in the header. -/
def GameInteractionEffectQueryResult.val : GameInteractionEffectQueryResult → Nat
  | .Possible => 0x00
  | .TemporarilyNotPossible => 0x01
  | .NotPossible => 0xFF

/-- Smallest value of the C type int32_t. -/
def Int32Min : Int := -2147483648

/-- Largest value of the C type int32_t. -/
def Int32Max : Int := 2147483647

/-- A value of the C type int32_t, as an integer in the representable range
(the header declares the parameter slots as int32_t). -/
abbrev Int32 := {z : Int // Int32Min ≤ z ∧ z ≤ Int32Max}

/-- The fixed parameter vector of every effect instance, from the header:
int32_t parameters[3] — exactly three caller-populated slots. -/
abbrev Params := Fin 3 → Int32

/-- Modelled from the spec: the lifecycle position of one effect instance
(section 4.1 states Unapplied, Applied and Removed; the storage of this
state belongs to the implementation in GameInteractionEffect.cpp, which is
not among the given sources). -/
inductive LifecycleState where
  | Unapplied
  | Applied
  | Removed
  deriving DecidableEq, Repr

/-- Modelled from the spec: the default implementation of
RemovableGameInteractionEffect::CanBeRemoved, declared virtual in the header
(line 28) with its body in GameInteractionEffect.cpp, not among the given
sources.  Spec section 4.1: the default implementation returns Possible
unconditionally; variants may override it. -/
def RemovableGameInteractionEffect.CanBeRemoved (Ext : Type) :
    Params → Ext → GameInteractionEffectQueryResult :=
  fun _ _ => .Possible

/-- Default body of the reversal hook RemovableGameInteractionEffect::_Remove,
declared inline in the header (line 31) with an empty body, hence the
identity on external state. -/
def RemovableGameInteractionEffect.defaultRemoveBody (Ext : Type) :
    Params → Ext → Ext :=
  fun _ e => e

/-- The variant-supplied payload of one concrete effect class: whether the
class derives from RemovableGameInteractionEffect, the feasibility predicate
CanBeApplied, the mutation body _Apply, and — meaningful for removable
variants — the removal predicate CanBeRemoved and the reversal body _Remove,
both defaulting to the inherited implementations when the variant does not
override them.  Member functions of the C++ classes become functions of the
instance's parameter slots and the external game state Ext; per spec
section 4.3 the payload bodies mutate external state only. -/
structure EffectBehavior (Ext : Type) where
  removable : Bool
  canBeApplied : Params → Ext → GameInteractionEffectQueryResult
  applyBody : Params → Ext → Ext
  canBeRemoved : Params → Ext → GameInteractionEffectQueryResult :=
    RemovableGameInteractionEffect.CanBeRemoved Ext
  removeBody : Params → Ext → Ext :=
    RemovableGameInteractionEffect.defaultRemoveBody Ext

/-- One effect instance: its variant behavior, its int32_t parameters[3]
slots (the only data member the header declares), and — modelled from the
spec — its lifecycle state, initially Unapplied. -/
structure EffectInstance (Ext : Type) where
  behavior : EffectBehavior Ext
  parameters : Params
  state : LifecycleState := .Unapplied

/-- Construction of an effect instance by a caller: variant plus
caller-populated parameter slots; the lifecycle state starts at Unapplied
(spec section 4.1: Unapplied is the initial state for every instance). -/
def mkEffect {Ext : Type} (b : EffectBehavior Ext) (p : Params) :
    EffectInstance Ext :=
  { behavior := b, parameters := p }

/-- Outcome of one lifecycle call: either a normal return carrying the
GameInteractionEffectQueryResult together with the instance and the external
state after the call, or a fail-fast contract violation
(abort/panic/defensive-assert, spec section 7), which returns no
feasibility value. -/
inductive LifecycleOutcome (Ext : Type) where
  | normal (result : GameInteractionEffectQueryResult)
      (inst : EffectInstance Ext) (ext : Ext)
  | contractViolation

/-- Modelled from the spec: GameInteractionEffectBase::Apply, declared at
header line 17 with its body in GameInteractionEffect.cpp, not among the
given sources.  Spec section 4.1: Apply calls CanBeApplied; if the result is
not Possible it is returned unchanged and no mutation is performed; if it is
Possible the variant's mutation body runs exactly once, the state becomes
Applied, and Possible is returned.  Calling Apply on an instance already in
Applied or Removed state is a contract violation (spec section 7). -/
def GameInteractionEffectBase.Apply {Ext : Type} (i : EffectInstance Ext)
    (ext : Ext) : LifecycleOutcome Ext :=
  if i.state = .Unapplied then
    if i.behavior.canBeApplied i.parameters ext = .Possible then
      .normal .Possible { i with state := .Applied }
        (i.behavior.applyBody i.parameters ext)
    else
      .normal (i.behavior.canBeApplied i.parameters ext) i ext
  else
    .contractViolation

/-- Modelled from the spec: RemovableGameInteractionEffect::Remove, declared
at header line 29 with its body in GameInteractionEffect.cpp, not among the
given sources.  Spec section 4.1: Remove is only valid in state Applied; it
calls CanBeRemoved; a non-Possible result is returned with no mutation and
the state stays Applied (retry allowed); on Possible the reversal body runs
exactly once and the state becomes Removed.  Spec section 7: calling Remove
before a successful Apply, or on a non-removable variant (the base class
Remove of header line 19, whose body is equally not among the given
sources), is a fail-fast contract violation. -/
def RemovableGameInteractionEffect.Remove {Ext : Type} (i : EffectInstance Ext)
    (ext : Ext) : LifecycleOutcome Ext :=
  if i.behavior.removable then
    if i.state = .Applied then
      if i.behavior.canBeRemoved i.parameters ext = .Possible then
        .normal .Possible { i with state := .Removed }
          (i.behavior.removeBody i.parameters ext)
      else
        .normal (i.behavior.canBeRemoved i.parameters ext) i ext
    else
      .contractViolation
  else
    .contractViolation

/-- A lifecycle operation requested by a caller. -/
inductive EffectOp where
  | applyOp
  | removeOp
  deriving DecidableEq, Repr

/-- Dispatch of one requested lifecycle operation on an instance. -/
def runOp {Ext : Type} : EffectOp → EffectInstance Ext → Ext → LifecycleOutcome Ext
  | .applyOp, i, e => GameInteractionEffectBase.Apply i e
  | .removeOp, i, e => RemovableGameInteractionEffect.Remove i e

/-! Declaration-level embedding of the class hierarchy of the header, for the
claims about inheritance and dispatch of the member function Remove. -/

/-- The closed catalog of concrete effect variant classes declared in
namespace GameInteractionEffect of the header, in header order. -/
inductive Variant where
  | SetSceneFlag
  | UnsetSceneFlag
  | SetFlag
  | UnsetFlag
  | ModifyHeartContainers
  | FillMagic
  | EmptyMagic
  | ModifyRupees
  | NoUI
  | ModifyGravity
  | ModifyHealth
  | SetPlayerHealth
  | FreezePlayer
  | BurnPlayer
  | ElectrocutePlayer
  | KnockbackPlayer
  | ModifyLinkSize
  | InvisibleLink
  | PacifistMode
  | DisableZTargeting
  | WeatherRainstorm
  | ReverseControls
  | ForceEquipBoots
  | ModifyRunSpeedModifier
  | OneHitKO
  | ModifyDefenseModifier
  | GiveOrTakeShield
  | TeleportPlayer
  | ClearAssignedButtons
  | SetTimeOfDay
  | SetCollisionViewer
  | SetCosmeticsColor
  | RandomizeCosmetics
  | PressButton
  | PressRandomButton
  | AddOrTakeAmmo
  | RandomBombFuseTimer
  | DisableLedgeGrabs
  | RandomWind
  | RandomBonks
  | PlayerInvincibility
  | SlipperyFloor
  | GiveItem
  deriving DecidableEq, Repr, Fintype

/-- The two engine classes a variant can directly derive from. -/
inductive EngineClass where
  | base
  | removable
  deriving DecidableEq, Repr

/-- Direct base class of each variant, exactly as written in the header:
the listed variants derive from RemovableGameInteractionEffect, all others
from GameInteractionEffectBase. -/
def variantParent : Variant → EngineClass
  | .NoUI => .removable
  | .ModifyGravity => .removable
  | .ModifyLinkSize => .removable
  | .InvisibleLink => .removable
  | .PacifistMode => .removable
  | .DisableZTargeting => .removable
  | .WeatherRainstorm => .removable
  | .ReverseControls => .removable
  | .ForceEquipBoots => .removable
  | .ModifyRunSpeedModifier => .removable
  | .OneHitKO => .removable
  | .ModifyDefenseModifier => .removable
  | .SetCollisionViewer => .removable
  | .RandomBombFuseTimer => .removable
  | .DisableLedgeGrabs => .removable
  | .RandomWind => .removable
  | .RandomBonks => .removable
  | .PlayerInvincibility => .removable
  | .SlipperyFloor => .removable
  | _ => .base

/-- The classes of the header, as receivers of a Remove call. -/
inductive CppClass where
  | GameInteractionEffectBase
  | RemovableGameInteractionEffect
  | variant (v : Variant)
  deriving DecidableEq, Repr, Fintype

/-- Direct base class, from the header: RemovableGameInteractionEffect
derives publicly from GameInteractionEffectBase, each variant from its
declared engine class; the root has none. -/
def parentClass : CppClass → Option CppClass
  | .GameInteractionEffectBase => none
  | .RemovableGameInteractionEffect => some .GameInteractionEffectBase
  | .variant v =>
      match variantParent v with
      | .base => some .GameInteractionEffectBase
      | .removable => some .RemovableGameInteractionEffect

/-- Whether the class itself declares a member function Remove (header
lines 19 and 29: both engine classes do; no variant class re-declares it). -/
def declaresRemove : CppClass → Bool
  | .GameInteractionEffectBase => true
  | .RemovableGameInteractionEffect => true
  | .variant _ => false

/-- Whether the Remove declared in the class carries the virtual keyword:
in the header neither declaration of Remove is virtual. -/
def removeIsVirtual : CppClass → Bool :=
  fun _ => false

/-- Whether the Remove declared in the class is in a public section: in the
header both declarations of Remove are public. -/
def removeIsPublic : CppClass → Bool
  | .GameInteractionEffectBase => true
  | .RemovableGameInteractionEffect => true
  | .variant _ => false

/-- The two bodies a resolved Remove call can land in. -/
inductive RemoveImpl where
  | baseRemove
  | removableRemove
  deriving DecidableEq, Repr

/-- The body belonging to the Remove that a class itself declares. -/
def removeImplOf : CppClass → Option RemoveImpl
  | .GameInteractionEffectBase => some .baseRemove
  | .RemovableGameInteractionEffect => some .removableRemove
  | .variant _ => none

/-- C++ unqualified name lookup for the member name Remove, walking the
inheritance chain from the given class upward; the fuel bounds the chain,
whose depth in this hierarchy is at most two. -/
def lookupRemoveAux : Nat → CppClass → Option CppClass
  | 0, _ => none
  | Nat.succ n, c =>
      if declaresRemove c then some c else (parentClass c).bind (lookupRemoveAux n)

/-- The class whose Remove declaration name lookup finds when the call is
written against the given static type. -/
def lookupRemove (c : CppClass) : Option CppClass :=
  lookupRemoveAux 3 c

/-- C++ call resolution for an expression calling Remove through a pointer
or reference of the given static type on an object of the given dynamic
type: name lookup runs in the static type; a virtual declaration would
dispatch to the dynamic type's version, a non-virtual one binds statically
to the declaration that lookup found. -/
def callRemove (staticType dynType : CppClass) : Option RemoveImpl :=
  (lookupRemove staticType).bind fun declaring =>
    if removeIsVirtual declaring then
      (lookupRemove dynType).bind removeImplOf
    else
      removeImplOf declaring

/-! Concrete demo payloads over an integer-valued external resource, used to
instantiate the general theorems at closed inputs. -/

/-- A removable additive resource-modifier payload: the mutation body adds
parameter slot 0 to the resource and the reversal body subtracts it again
(the resource-modifier scenario of spec section 8). -/
def resourceModifier : EffectBehavior Int :=
  { removable := true,
    canBeApplied := fun _ _ => .Possible,
    applyBody := fun p e => e + (p 0).val,
    removeBody := fun p e => e - (p 0).val }

/-- A parameter vector whose slot 0 holds the amount 50. -/
def plus50 : Params :=
  fun _ => ⟨50, by decide⟩

/-- An all-zero parameter vector. -/
def zeroParams : Params :=
  fun _ => ⟨0, by decide⟩

/-- A freshly constructed resource-modifier instance. -/
def resourceEffect : EffectInstance Int :=
  mkEffect resourceModifier plus50

/-- The resource-modifier instance after a successful apply. -/
def appliedResourceEffect : EffectInstance Int :=
  { resourceEffect with state := .Applied }

/-- A non-removable demo payload whose predicate requires a nonzero target
resource and whose mutation body leaves the resource unchanged. -/
def targetedEffect : EffectBehavior Int :=
  { removable := false,
    canBeApplied := fun _ e => if e = 0 then .NotPossible else .Possible,
    applyBody := fun _ e => e }

/-- A freshly constructed instance of the non-removable demo payload. -/
def targetedInstance : EffectInstance Int :=
  mkEffect targetedEffect zeroParams

/-- A removable demo payload that overrides neither CanBeRemoved nor the
reversal hook, keeping the inherited defaults. -/
def defaultReversalDemo : EffectBehavior Int :=
  { removable := true,
    canBeApplied := fun _ _ => .Possible,
    applyBody := fun p e => e + (p 1).val }

/-- A demo instance of the default-reversal payload, already applied. -/
def appliedDefaultReversal : EffectInstance Int :=
  { mkEffect defaultReversalDemo plus50 with state := .Applied }

/-! Theorems for the claims. -/

/-- C1: on an effect instance in state Unapplied, Apply first evaluates
CanBeApplied; if the result is not Possible, Apply returns exactly that
result, performs no mutation of external state and leaves the instance
unchanged; if the result is Possible, Apply executes the variant's mutation
body exactly once, moves the instance to state Applied, and returns
Possible. -/
theorem Apply_follows_canBeApplied {Ext : Type} (i : EffectInstance Ext)
    (ext : Ext) (h : i.state = .Unapplied) :
    (i.behavior.canBeApplied i.parameters ext ≠ .Possible →
        GameInteractionEffectBase.Apply i ext =
          .normal (i.behavior.canBeApplied i.parameters ext) i ext) ∧
    (i.behavior.canBeApplied i.parameters ext = .Possible →
        GameInteractionEffectBase.Apply i ext =
          .normal .Possible { i with state := .Applied }
            (i.behavior.applyBody i.parameters ext)) := by
  constructor
  · intro hne
    simp [GameInteractionEffectBase.Apply, h, hne]
  · intro hp
    simp [GameInteractionEffectBase.Apply, h, hp]

/-- Witness for C1 at the resource-modifier demo with resource 100. -/
theorem Apply_follows_canBeApplied_witness :
    resourceEffect.state = LifecycleState.Unapplied ∧
    ((resourceEffect.behavior.canBeApplied resourceEffect.parameters 100 ≠ .Possible →
        GameInteractionEffectBase.Apply resourceEffect 100 =
          .normal (resourceEffect.behavior.canBeApplied resourceEffect.parameters 100)
            resourceEffect 100) ∧
     (resourceEffect.behavior.canBeApplied resourceEffect.parameters 100 = .Possible →
        GameInteractionEffectBase.Apply resourceEffect 100 =
          .normal .Possible { resourceEffect with state := .Applied }
            (resourceEffect.behavior.applyBody resourceEffect.parameters 100))) :=
  ⟨rfl, Apply_follows_canBeApplied resourceEffect 100 rfl⟩

/-- C2: on a removable effect instance in state Applied, Remove first
evaluates CanBeRemoved; if the result is not Possible, Remove returns that
result, performs no mutation and leaves the instance unchanged — still in
state Applied, so removal may be retried; if the result is Possible, Remove
executes the variant's reversal body exactly once and moves the instance to
state Removed. -/
theorem Remove_follows_canBeRemoved {Ext : Type} (i : EffectInstance Ext)
    (ext : Ext) (hrem : i.behavior.removable = true) (h : i.state = .Applied) :
    (i.behavior.canBeRemoved i.parameters ext ≠ .Possible →
        RemovableGameInteractionEffect.Remove i ext =
          .normal (i.behavior.canBeRemoved i.parameters ext) i ext) ∧
    (i.behavior.canBeRemoved i.parameters ext = .Possible →
        RemovableGameInteractionEffect.Remove i ext =
          .normal .Possible { i with state := .Removed }
            (i.behavior.removeBody i.parameters ext)) := by
  constructor
  · intro hne
    simp [RemovableGameInteractionEffect.Remove, hrem, h, hne]
  · intro hp
    simp [RemovableGameInteractionEffect.Remove, hrem, h, hp]

/-- Witness for C2 at the applied resource-modifier demo with resource 150. -/
theorem Remove_follows_canBeRemoved_witness :
    appliedResourceEffect.behavior.removable = true ∧
    appliedResourceEffect.state = LifecycleState.Applied ∧
    ((appliedResourceEffect.behavior.canBeRemoved appliedResourceEffect.parameters 150 ≠ .Possible →
        RemovableGameInteractionEffect.Remove appliedResourceEffect 150 =
          .normal (appliedResourceEffect.behavior.canBeRemoved appliedResourceEffect.parameters 150)
            appliedResourceEffect 150) ∧
     (appliedResourceEffect.behavior.canBeRemoved appliedResourceEffect.parameters 150 = .Possible →
        RemovableGameInteractionEffect.Remove appliedResourceEffect 150 =
          .normal .Possible { appliedResourceEffect with state := .Removed }
            (appliedResourceEffect.behavior.removeBody appliedResourceEffect.parameters 150))) :=
  ⟨rfl, rfl, Remove_follows_canBeRemoved appliedResourceEffect 150 rfl rfl⟩

/-- C4: the contract violations — Apply on an instance whose state is
already Applied or Removed, Remove before a successful Apply (state
Unapplied), and Remove on a non-removable variant — all end in the
fail-fast contractViolation outcome, which carries no
GameInteractionEffectQueryResult, rather than in a normal return. -/
theorem contract_violations_fail_fast {Ext : Type} (i : EffectInstance Ext)
    (e : Ext) :
    (i.state = .Applied ∨ i.state = .Removed →
        GameInteractionEffectBase.Apply i e = .contractViolation) ∧
    (i.state = .Unapplied →
        RemovableGameInteractionEffect.Remove i e = .contractViolation) ∧
    (i.behavior.removable = false →
        RemovableGameInteractionEffect.Remove i e = .contractViolation) := by
  refine ⟨?_, ?_, ?_⟩
  · rintro (h | h) <;> simp [GameInteractionEffectBase.Apply, h]
  · intro h
    by_cases hr : i.behavior.removable <;>
      simp [RemovableGameInteractionEffect.Remove, h, hr]
  · intro h
    simp [RemovableGameInteractionEffect.Remove, h]

/-- Witness for C4: a double apply, a premature remove, and a remove on a
non-removable demo variant each hit the fail-fast outcome. -/
theorem contract_violations_fail_fast_witness :
    ((appliedResourceEffect.state = LifecycleState.Applied ∨
        appliedResourceEffect.state = LifecycleState.Removed) ∧
      GameInteractionEffectBase.Apply appliedResourceEffect 150 =
        .contractViolation) ∧
    (resourceEffect.state = LifecycleState.Unapplied ∧
      RemovableGameInteractionEffect.Remove resourceEffect 100 =
        .contractViolation) ∧
    (targetedInstance.behavior.removable = false ∧
      RemovableGameInteractionEffect.Remove targetedInstance 0 =
        .contractViolation) :=
  ⟨⟨Or.inl rfl,
      (contract_violations_fail_fast appliedResourceEffect 150).1 (Or.inl rfl)⟩,
   ⟨rfl, (contract_violations_fail_fast resourceEffect 100).2.1 rfl⟩,
   ⟨rfl, (contract_violations_fail_fast targetedInstance 0).2.2 rfl⟩⟩

/-- Case analysis of a normal return of Apply: it happens only from state
Unapplied, and is either a successful application or an unchanged rebound of
the non-Possible predicate result. -/
theorem Apply_cases {Ext : Type} (i : EffectInstance Ext) (e : Ext)
    (r : GameInteractionEffectQueryResult) (i2 : EffectInstance Ext) (e2 : Ext)
    (h : GameInteractionEffectBase.Apply i e = .normal r i2 e2) :
    i.state = .Unapplied ∧
      ((r = .Possible ∧ i2 = { i with state := .Applied } ∧
          e2 = i.behavior.applyBody i.parameters e) ∨
        (r ≠ .Possible ∧ r = i.behavior.canBeApplied i.parameters e ∧
          i2 = i ∧ e2 = e)) := by
  unfold GameInteractionEffectBase.Apply at h
  split at h
  · next hs =>
      split at h
      · next hc =>
          injection h with h1 h2 h3
          exact ⟨hs, Or.inl ⟨h1.symm, h2.symm, h3.symm⟩⟩
      · next hc =>
          injection h with h1 h2 h3
          exact ⟨hs, Or.inr ⟨h1 ▸ hc, h1.symm, h2.symm, h3.symm⟩⟩
  · exact LifecycleOutcome.noConfusion h

/-- Case analysis of a normal return of Remove: it happens only on a
removable variant in state Applied, and is either a successful removal or an
unchanged rebound of the non-Possible predicate result. -/
theorem Remove_cases {Ext : Type} (i : EffectInstance Ext) (e : Ext)
    (r : GameInteractionEffectQueryResult) (i2 : EffectInstance Ext) (e2 : Ext)
    (h : RemovableGameInteractionEffect.Remove i e = .normal r i2 e2) :
    i.behavior.removable = true ∧ i.state = .Applied ∧
      ((r = .Possible ∧ i2 = { i with state := .Removed } ∧
          e2 = i.behavior.removeBody i.parameters e) ∨
        (r ≠ .Possible ∧ r = i.behavior.canBeRemoved i.parameters e ∧
          i2 = i ∧ e2 = e)) := by
  unfold RemovableGameInteractionEffect.Remove at h
  split at h
  · next hrem =>
      split at h
      · next hs =>
          split at h
          · next hc =>
              injection h with h1 h2 h3
              exact ⟨hrem, hs, Or.inl ⟨h1.symm, h2.symm, h3.symm⟩⟩
          · next hc =>
              injection h with h1 h2 h3
              exact ⟨hrem, hs, Or.inr ⟨h1 ▸ hc, h1.symm, h2.symm, h3.symm⟩⟩
      · exact LifecycleOutcome.noConfusion h
  · exact LifecycleOutcome.noConfusion h

/-- C3: every instance starts in state Unapplied, and under any sequence of
lifecycle calls the only transitions that a normal return can make are
Unapplied to Applied (a successful Apply) and, for removable variants only,
Applied to Removed (a successful Remove); a failed call leaves the state
unchanged, and no call returns normally from the terminal state Removed. -/
theorem lifecycle_state_machine {Ext : Type} :
    (∀ (b : EffectBehavior Ext) (p : Params), (mkEffect b p).state = .Unapplied) ∧
    (∀ (op : EffectOp) (i : EffectInstance Ext) (e : Ext)
        (r : GameInteractionEffectQueryResult) (i2 : EffectInstance Ext) (e2 : Ext),
        runOp op i e = .normal r i2 e2 →
        (i.state = .Unapplied →
            op = .applyOp ∧
              ((i2 = i ∧ i2.state = .Unapplied) ∨
                (i2.state = .Applied ∧ r = .Possible))) ∧
        (i.state = .Applied →
            op = .removeOp ∧ i.behavior.removable = true ∧
              ((i2 = i ∧ i2.state = .Applied) ∨
                (i2.state = .Removed ∧ r = .Possible))) ∧
        (i.state = .Removed → False)) := by
  refine ⟨fun b p => rfl, ?_⟩
  intro op i e r i2 e2 hrun
  cases op with
  | applyOp =>
      obtain ⟨hs, hcase⟩ := Apply_cases i e r i2 e2 hrun
      refine ⟨fun _ => ⟨rfl, ?_⟩, fun ha => ?_, fun hr => ?_⟩
      · rcases hcase with ⟨hr1, hi2, _⟩ | ⟨_, _, hi2, _⟩
        · exact Or.inr ⟨by rw [hi2], hr1⟩
        · exact Or.inl ⟨hi2, by rw [hi2, hs]⟩
      · simp [hs] at ha
      · simp [hs] at hr
  | removeOp =>
      obtain ⟨hrem, hs, hcase⟩ := Remove_cases i e r i2 e2 hrun
      refine ⟨fun hu => ?_, fun _ => ⟨rfl, hrem, ?_⟩, fun hrm => ?_⟩
      · simp [hs] at hu
      · rcases hcase with ⟨hr1, hi2, _⟩ | ⟨_, _, hi2, _⟩
        · exact Or.inr ⟨by rw [hi2], hr1⟩
        · exact Or.inl ⟨hi2, by rw [hi2, hs]⟩
      · simp [hs] at hrm

/-- Witness for C3: a fresh resource-modifier instance is Unapplied, and a
concrete successful Apply steps it from Unapplied to Applied. -/
theorem lifecycle_state_machine_witness :
    (mkEffect resourceModifier plus50).state = LifecycleState.Unapplied ∧
    runOp EffectOp.applyOp resourceEffect 100 =
      LifecycleOutcome.normal .Possible appliedResourceEffect 150 ∧
    ((resourceEffect.state = LifecycleState.Unapplied →
        EffectOp.applyOp = EffectOp.applyOp ∧
          ((appliedResourceEffect = resourceEffect ∧
              appliedResourceEffect.state = LifecycleState.Unapplied) ∨
            (appliedResourceEffect.state = LifecycleState.Applied ∧
              GameInteractionEffectQueryResult.Possible =
                GameInteractionEffectQueryResult.Possible))) ∧
     (resourceEffect.state = LifecycleState.Applied →
        EffectOp.applyOp = EffectOp.removeOp ∧
          resourceEffect.behavior.removable = true ∧
          ((appliedResourceEffect = resourceEffect ∧
              appliedResourceEffect.state = LifecycleState.Applied) ∨
            (appliedResourceEffect.state = LifecycleState.Removed ∧
              GameInteractionEffectQueryResult.Possible =
                GameInteractionEffectQueryResult.Possible))) ∧
     (resourceEffect.state = LifecycleState.Removed → False)) :=
  ⟨(@lifecycle_state_machine Int).1 resourceModifier plus50, rfl,
    (@lifecycle_state_machine Int).2 .applyOp resourceEffect 100 .Possible
      appliedResourceEffect 150 rfl⟩

/-- C5: every effect instance carries exactly three parameter slots — the
Params type is indexed by Fin 3 — each holding a signed 32-bit value, and a
lifecycle call that returns normally leaves the parameter slots unchanged
and in the int32_t range; the feasibility predicates are modelled as pure
functions and mutate nothing. -/
theorem parameters_immutable {Ext : Type} (op : EffectOp)
    (i : EffectInstance Ext) (e : Ext) (r : GameInteractionEffectQueryResult)
    (i2 : EffectInstance Ext) (e2 : Ext)
    (h : runOp op i e = .normal r i2 e2) :
    i2.parameters = i.parameters ∧
    ∀ k : Fin 3, Int32Min ≤ (i2.parameters k).val ∧ (i2.parameters k).val ≤ Int32Max := by
  refine ⟨?_, fun k => (i2.parameters k).property⟩
  cases op with
  | applyOp =>
      obtain ⟨hs, hcase⟩ := Apply_cases i e r i2 e2 h
      rcases hcase with ⟨_, hi2, _⟩ | ⟨_, _, hi2, _⟩ <;> rw [hi2]
  | removeOp =>
      obtain ⟨hrem, hs, hcase⟩ := Remove_cases i e r i2 e2 h
      rcases hcase with ⟨_, hi2, _⟩ | ⟨_, _, hi2, _⟩ <;> rw [hi2]

/-- Witness for C5: a concrete successful Apply keeps the three int32_t
parameter slots intact. -/
theorem parameters_immutable_witness :
    runOp EffectOp.applyOp resourceEffect 100 =
      LifecycleOutcome.normal .Possible appliedResourceEffect 150 ∧
    (appliedResourceEffect.parameters = resourceEffect.parameters ∧
      ∀ k : Fin 3, Int32Min ≤ (appliedResourceEffect.parameters k).val ∧
        (appliedResourceEffect.parameters k).val ≤ Int32Max) :=
  ⟨rfl, parameters_immutable .applyOp resourceEffect 100 .Possible
    appliedResourceEffect 150 rfl⟩

/-- C6: a removable variant that does not override CanBeRemoved keeps the
inherited default implementation, which returns Possible unconditionally,
whatever the parameters and the external state. -/
theorem default_canBeRemoved_possible {Ext : Type} (b : EffectBehavior Ext)
    (h : b.canBeRemoved = RemovableGameInteractionEffect.CanBeRemoved Ext) :
    ∀ (p : Params) (e : Ext), b.canBeRemoved p e = .Possible := by
  intro p e
  rw [h]
  rfl

/-- Witness for C6: the default-reversal demo payload keeps the inherited
CanBeRemoved, and it answers Possible at a concrete input. -/
theorem default_canBeRemoved_possible_witness :
    defaultReversalDemo.canBeRemoved =
      RemovableGameInteractionEffect.CanBeRemoved Int ∧
    defaultReversalDemo.canBeRemoved plus50 7 = .Possible :=
  ⟨rfl, default_canBeRemoved_possible defaultReversalDemo rfl plus50 7⟩

/-- C7: for a removable variant whose reversal body exactly inverts its
mutation body — an invertible domain mutation such as an additive modifier —
a successful Apply followed immediately by a successful Remove restores the
externally observable state to its pre-apply value, ending in state
Removed. -/
theorem apply_remove_round_trip {Ext : Type} (i : EffectInstance Ext) (e : Ext)
    (h1 : i.state = .Unapplied) (h2 : i.behavior.removable = true)
    (h3 : i.behavior.canBeApplied i.parameters e = .Possible)
    (h4 : ∀ x : Ext, i.behavior.canBeRemoved i.parameters x = .Possible)
    (h5 : ∀ x : Ext,
        i.behavior.removeBody i.parameters (i.behavior.applyBody i.parameters x) = x) :
    GameInteractionEffectBase.Apply i e =
      .normal .Possible { i with state := .Applied }
        (i.behavior.applyBody i.parameters e) ∧
    RemovableGameInteractionEffect.Remove { i with state := .Applied }
        (i.behavior.applyBody i.parameters e) =
      .normal .Possible { i with state := .Removed } e := by
  constructor
  · simp [GameInteractionEffectBase.Apply, h1, h3]
  · simp [RemovableGameInteractionEffect.Remove, h2, h4, h5]

/-- Witness for C7, the resource-modifier scenario of spec section 8:
slot 0 holds 50, the resource starts at 100, Apply raises it to 150 in state
Applied, Remove restores 100 in state Removed. -/
theorem apply_remove_round_trip_witness :
    resourceEffect.state = LifecycleState.Unapplied ∧
    resourceEffect.behavior.removable = true ∧
    resourceEffect.behavior.canBeApplied resourceEffect.parameters 100 = .Possible ∧
    (∀ x : Int, resourceEffect.behavior.canBeRemoved resourceEffect.parameters x = .Possible) ∧
    (∀ x : Int, resourceEffect.behavior.removeBody resourceEffect.parameters
        (resourceEffect.behavior.applyBody resourceEffect.parameters x) = x) ∧
    (GameInteractionEffectBase.Apply resourceEffect 100 =
        .normal .Possible appliedResourceEffect 150 ∧
      RemovableGameInteractionEffect.Remove appliedResourceEffect 150 =
        .normal .Possible { resourceEffect with state := .Removed } 100) :=
  ⟨rfl, rfl, rfl, fun _ => rfl, fun x => Int.add_sub_cancel x 50,
    apply_remove_round_trip resourceEffect 100 rfl rfl rfl (fun _ => rfl)
      (fun x => Int.add_sub_cancel x 50)⟩

/-- C8: every variant class, the non-removable ones included, has a public
Remove member found by name lookup through its declared base classes — in
GameInteractionEffectBase for the non-removable ones and in
RemovableGameInteractionEffect for the removable ones.  Since neither
declaration of Remove carries the virtual keyword, a Remove call through a
pointer or reference of static type GameInteractionEffectBase on an object
of any variant dynamic type — a removable one in particular — binds
statically to the base-class Remove, never to the subclass Remove, whereas a
call through static type RemovableGameInteractionEffect binds to the
subclass Remove. -/
theorem Remove_dispatches_statically :
    (∀ v : Variant,
        lookupRemove (.variant v) =
          some (if variantParent v = EngineClass.base then
              CppClass.GameInteractionEffectBase
            else CppClass.RemovableGameInteractionEffect)) ∧
    (∀ v : Variant, (lookupRemove (.variant v)).any removeIsPublic = true) ∧
    (∀ c : CppClass, removeIsVirtual c = false) ∧
    (∀ v : Variant,
        callRemove .GameInteractionEffectBase (.variant v) =
          some .baseRemove) ∧
    (∀ v : Variant,
        callRemove .RemovableGameInteractionEffect (.variant v) =
          some .removableRemove) := by
  refine ⟨?_, ?_, fun c => rfl, ?_, ?_⟩ <;> decide

/-- C9: a removable variant that does not override the reversal hook keeps
the inherited default body, which is the identity on external state, so a
successful Remove on such a variant performs no mutation of external state
while moving the instance to state Removed. -/
theorem default_reversal_no_op {Ext : Type} (i : EffectInstance Ext) (e : Ext)
    (h0 : i.behavior.removeBody = RemovableGameInteractionEffect.defaultRemoveBody Ext)
    (hrem : i.behavior.removable = true) (hs : i.state = .Applied)
    (hc : i.behavior.canBeRemoved i.parameters e = .Possible) :
    (∀ (p : Params) (x : Ext),
        RemovableGameInteractionEffect.defaultRemoveBody Ext p x = x) ∧
    RemovableGameInteractionEffect.Remove i e =
      .normal .Possible { i with state := .Removed } e := by
  refine ⟨fun p x => rfl, ?_⟩
  simp [RemovableGameInteractionEffect.Remove, hrem, hs, hc, h0,
    RemovableGameInteractionEffect.defaultRemoveBody]

/-- Witness for C9: the applied default-reversal demo instance keeps the
inherited no-op reversal hook, and removing it at resource 7 leaves the
resource at 7. -/
theorem default_reversal_no_op_witness :
    appliedDefaultReversal.behavior.removeBody =
      RemovableGameInteractionEffect.defaultRemoveBody Int ∧
    appliedDefaultReversal.behavior.removable = true ∧
    appliedDefaultReversal.state = LifecycleState.Applied ∧
    appliedDefaultReversal.behavior.canBeRemoved
      appliedDefaultReversal.parameters 7 = .Possible ∧
    ((∀ (p : Params) (x : Int),
        RemovableGameInteractionEffect.defaultRemoveBody Int p x = x) ∧
      RemovableGameInteractionEffect.Remove appliedDefaultReversal 7 =
        .normal .Possible { appliedDefaultReversal with state := .Removed } 7) :=
  ⟨rfl, rfl, rfl, rfl,
    default_reversal_no_op appliedDefaultReversal 7 rfl rfl rfl rfl⟩

/-- C10: the three feasibility values carry the pairwise distinct numeric
encodings Possible = 0x00, TemporarilyNotPossible = 0x01 and
NotPossible = 0xFF fixed in the header; every value of the result type is
one of exactly these three, so every lifecycle operation that returns
normally returns one of them, as do the feasibility predicates. -/
theorem query_result_encoding {Ext : Type} (i : EffectInstance Ext) (e : Ext) :
    GameInteractionEffectQueryResult.Possible.val = 0x00 ∧
    GameInteractionEffectQueryResult.TemporarilyNotPossible.val = 0x01 ∧
    GameInteractionEffectQueryResult.NotPossible.val = 0xFF ∧
    (∀ q1 q2 : GameInteractionEffectQueryResult, q1 ≠ q2 → q1.val ≠ q2.val) ∧
    (∀ q : GameInteractionEffectQueryResult,
        q = .Possible ∨ q = .TemporarilyNotPossible ∨ q = .NotPossible) ∧
    ((i.behavior.canBeApplied i.parameters e).val = 0x00 ∨
      (i.behavior.canBeApplied i.parameters e).val = 0x01 ∨
      (i.behavior.canBeApplied i.parameters e).val = 0xFF) ∧
    ((i.behavior.canBeRemoved i.parameters e).val = 0x00 ∨
      (i.behavior.canBeRemoved i.parameters e).val = 0x01 ∨
      (i.behavior.canBeRemoved i.parameters e).val = 0xFF) ∧
    (∀ (op : EffectOp) (r : GameInteractionEffectQueryResult)
        (i2 : EffectInstance Ext) (e2 : Ext),
        runOp op i e = .normal r i2 e2 →
        r.val = 0x00 ∨ r.val = 0x01 ∨ r.val = 0xFF) := by
  refine ⟨rfl, rfl, rfl, by decide, by decide, ?_, ?_, ?_⟩
  · cases i.behavior.canBeApplied i.parameters e <;> simp [GameInteractionEffectQueryResult.val]
  · cases i.behavior.canBeRemoved i.parameters e <;> simp [GameInteractionEffectQueryResult.val]
  · intro op r i2 e2 _
    cases r <;> simp [GameInteractionEffectQueryResult.val]

/-- Witness for C10 at the non-removable targeted demo with no target
present: the rejected Apply returns NotPossible, encoded 0xFF. -/
theorem query_result_encoding_witness :
    runOp EffectOp.applyOp targetedInstance 0 =
      LifecycleOutcome.normal .NotPossible targetedInstance 0 ∧
    (GameInteractionEffectQueryResult.NotPossible.val = 0x00 ∨
      GameInteractionEffectQueryResult.NotPossible.val = 0x01 ∨
      GameInteractionEffectQueryResult.NotPossible.val = 0xFF) :=
  ⟨rfl, (query_result_encoding targetedInstance 0).2.2.2.2.2.2.2
    .applyOp .NotPossible targetedInstance 0 rfl⟩

end SoH
